import Mathlib

/-!
# LearnOpenGL: shader-source splitting, program build and error draining

A shallow embedding of `src/Application.cpp`:

* `ParseShader` (lines 43-68) over an input stream given as the list of lines
  that `getline` yields, or `none` when the file could not be opened;
* `CompileShader` (lines 70-92) and `CreateShader` (lines 94-109) over an
  abstract graphics backend whose answers may depend on the whole call
  history, with every backend call recorded in a trace;
* `GLClearError`, `GLCheckError` and the `GLCall` wrapper (lines 8-35) over
  the backend error queue.

`std::string` is `String`; `std::string::npos` is `none`.
-/

namespace LearnOpenGL

/-! ## std::string::find -/

/-- Whether `needle` is matched by the characters starting at the head of `s`. -/
def matchesAt : List Char → List Char → Bool
  | [], _ => true
  | _ :: _, [] => false
  | n :: ns, c :: cs => n == c && matchesAt ns cs

/-- Search for the first position at or after `pos` (the index of the head of the
remaining characters) where `needle` occurs. -/
def findFrom (needle : List Char) : List Char → Nat → Option Nat
  | [], pos => if matchesAt needle [] then some pos else none
  | c :: cs, pos =>
    if matchesAt needle (c :: cs) then some pos else findFrom needle cs (pos + 1)

/-- The call `line.find(needle)`: index of the first occurrence, `none` for `npos`. -/
def find (line needle : String) : Option Nat :=
  findFrom needle.data line.data 0

/-! ## ParseShader (lines 37-68) -/

/-- The local `enum class ShaderType` of `ParseShader` (lines 45-48). -/
inductive ShaderType where
  | NONE
  | VERTEX
  | FRAGMENT
deriving DecidableEq, Repr

/-- The value of `(int)type` (line 47), the index into `ss[2]` at line 64. -/
def ShaderType.toInt : ShaderType → Int
  | .NONE => -1
  | .VERTEX => 0
  | .FRAGMENT => 1

/-- The struct of lines 37-41. -/
structure shaderProgramSource where
  vertexSource : String
  fragmentSource : String
deriving DecidableEq, Repr

/-- The locals of `ParseShader` that change in the loop: `type`, `ss[0]` and `ss[1]`. -/
structure ParseState where
  type : ShaderType
  ss0 : String
  ss1 : String
deriving DecidableEq, Repr

/-- One pass through the body of the `while (getline(stream, line))` loop (lines 55-65). -/
def parseLine (st : ParseState) (line : String) : ParseState :=
  if find line "#shader" ≠ none then
    if find line "vertex" ≠ none then
      { st with type := .VERTEX }
    else if find line "fragment" ≠ none then
      { st with type := .FRAGMENT }
    else
      st
  else if ShaderType.NONE ≠ st.type then
    if st.type.toInt = 0 then
      { st with ss0 := st.ss0 ++ line ++ "\n" }
    else
      { st with ss1 := st.ss1 ++ line ++ "\n" }
  else
    st

/-- The loop of lines 53-66 over the lines that `getline` delivers. -/
def parseLoop : ParseState → List String → ParseState
  | st, [] => st
  | st, line :: rest => parseLoop (parseLine st line) rest

/-- An input file stream right after construction (line 49): `none` when the file
could not be opened, otherwise the lines that successive `getline` calls yield
before the first call that is false (end of file or a read error). -/
abbrev ifstream := Option (List String)

/-- The lines read by the loop condition `getline(stream, line)`: a stream whose
open failed is in a failed state, so the first `getline` is already false. -/
def getlines : ifstream → List String
  | none => []
  | some lines => lines

/-- The function `ParseShader` (lines 43-68), given the stream that line 49 opens. -/
def ParseShader (stream : ifstream) : shaderProgramSource :=
  let st := parseLoop ⟨.NONE, "", ""⟩ (getlines stream)
  ⟨st.ss0, st.ss1⟩

/-- The condition a caller could observe when a call fails instead of returning. -/
inductive Condition where
  | ResourceUnavailable
deriving DecidableEq, Repr

/-- What the caller of `ParseShader(filepath)` observes (line 165): the body has no
`throw`, and neither the `ifstream` constructor nor `getline` raises with the
default exception mask, so the call returns its value on every path. -/
def ParseShaderCall (stream : ifstream) : Except Condition shaderProgramSource :=
  .ok (ParseShader stream)

/-- Concatenation of `line ++ "\n"` over a block of lines. -/
def joinLines : List String → String
  | [] => ""
  | line :: rest => line ++ "\n" ++ joinLines rest

/-- The stage whose keyword occurs first in a line, by position of the first
occurrence of each keyword; `NONE` when neither occurs. -/
def firstKeywordStage (line : String) : ShaderType :=
  match find line "vertex", find line "fragment" with
  | some i, some j => if i < j then .VERTEX else .FRAGMENT
  | some _, none => .VERTEX
  | none, some _ => .FRAGMENT
  | none, none => .NONE

/-! ## The graphics backend -/

/-- The constant `GL_FALSE` of the graphics header. -/
def GL_FALSE : Int := 0

/-- The constant `GL_NO_ERROR` of the graphics header. -/
def GL_NO_ERROR : Nat := 0

/-- The constant `GL_VERTEX_SHADER` of the graphics header (0x8B31). -/
def GL_VERTEX_SHADER : Nat := 35633

/-- The constant `GL_FRAGMENT_SHADER` of the graphics header (0x8B30). -/
def GL_FRAGMENT_SHADER : Nat := 35632

/-- The constant `GL_COMPILE_STATUS` of the graphics header (0x8B81). -/
def GL_COMPILE_STATUS : Nat := 35713

/-- The constant `GL_INFO_LOG_LENGTH` of the graphics header (0x8B84). -/
def GL_INFO_LOG_LENGTH : Nat := 35716

/-- One backend call made by `CompileShader` or `CreateShader`, with its arguments
and, for calls that hand something back, what the backend answered. -/
inductive GLEvent where
  | glCreateProgram (ret : Nat)
  | glCreateShader (type : Nat) (ret : Nat)
  | glShaderSource (shader : Nat) (source : String)
  | glCompileShader (shader : Nat)
  | glGetShaderiv (shader : Nat) (pname : Nat) (ret : Int)
  | glGetShaderInfoLog (shader : Nat) (bufSize : Int) (log : String)
  | glDeleteShader (shader : Nat)
  | glAttachShader (program : Nat) (shader : Nat)
  | glLinkProgram (program : Nat)
  | glValidateProgram (program : Nat)
deriving DecidableEq, Repr

/-- An abstract backend: each answer is an arbitrary function of the calls made so
far and of the arguments of the call. The answer of `getShaderInfoLog` is the
NUL-terminated log text that the backend writes into a buffer of `bufSize` bytes; it
is written only when the buffer has room, that is when `0 < bufSize`.
The field `uninitialised` is not an answer of the backend: it is the text that
`std::cout << message` finds in a buffer obtained from `alloca` to which nothing was
written (the bytes up to the first NUL found there), which the language leaves
unspecified. -/
structure Backend where
  createProgram : List GLEvent → Nat
  createShader : List GLEvent → Nat → Nat
  getShaderiv : List GLEvent → Nat → Nat → Int
  getShaderInfoLog : List GLEvent → Nat → Int → String
  uninitialised : List GLEvent → String

/-- The observable state around the build: the backend calls made so far and the
text written to `std::cout` by the build functions. -/
structure World where
  trace : List GLEvent
  cout : String
deriving DecidableEq, Repr

/-- Record one backend call. -/
def World.call (w : World) (e : GLEvent) : World :=
  { w with trace := w.trace ++ [e] }

/-- Write text to `std::cout`. -/
def World.print (w : World) (text : String) : World :=
  { w with cout := w.cout ++ text }

/-- The function `CompileShader` (lines 70-92). The buffer `message` of line 83 has
`length` bytes and starts out uninitialised; the call of line 84 leaves the log text
in it when `0 < length` and leaves it untouched otherwise, and line 86 prints the C
string found in it. -/
def CompileShader (B : Backend) (type : Nat) (source : String) (w : World) : Nat × World :=
  let id := B.createShader w.trace type
  let w := w.call (.glCreateShader type id)
  let w := w.call (.glShaderSource id source)
  let w := w.call (.glCompileShader id)
  let result := B.getShaderiv w.trace id GL_COMPILE_STATUS
  let w := w.call (.glGetShaderiv id GL_COMPILE_STATUS result)
  if GL_FALSE = result then
    let length := B.getShaderiv w.trace id GL_INFO_LOG_LENGTH
    let w := w.call (.glGetShaderiv id GL_INFO_LOG_LENGTH length)
    let buffer := B.uninitialised w.trace
    let log := B.getShaderInfoLog w.trace id length
    let w := w.call (.glGetShaderInfoLog id length log)
    let message := if 0 < length then log else buffer
    let w := w.print ("Fail to compile "
      ++ (if type = GL_VERTEX_SHADER then "vertex" else "fragment") ++ " shader" ++ "\n")
    let w := w.print (message ++ "\n")
    let w := w.call (.glDeleteShader id)
    (0, w)
  else
    (id, w)

/-- The function `CreateShader` (lines 94-109). -/
def CreateShader (B : Backend) (vertexShader fragmentShader : String) (w : World) :
    Nat × World :=
  let program := B.createProgram w.trace
  let w := w.call (.glCreateProgram program)
  let (vs, w) := CompileShader B GL_VERTEX_SHADER vertexShader w
  let (fs, w) := CompileShader B GL_FRAGMENT_SHADER fragmentShader w
  let w := w.call (.glAttachShader program vs)
  let w := w.call (.glAttachShader program fs)
  let w := w.call (.glLinkProgram program)
  let w := w.call (.glValidateProgram program)
  let w := w.call (.glDeleteShader vs)
  let w := w.call (.glDeleteShader fs)
  (program, w)

/-- The two stage kinds a build compiles. -/
inductive StageKind where
  | Vertex
  | Fragment
deriving DecidableEq, Repr

/-- The backend constant passed to `CompileShader` for a stage kind (lines 97-98). -/
def StageKind.glType : StageKind → Nat
  | .Vertex => GL_VERTEX_SHADER
  | .Fragment => GL_FRAGMENT_SHADER

/-- The word that tags a diagnostic with its stage kind. -/
def StageKind.tag : StageKind → String
  | .Vertex => "vertex"
  | .Fragment => "fragment"

/-- Every `glCreateShader` event of a trace is followed, later in the trace, by a
`glDeleteShader` event for the handle it returned. -/
def createdAreDeleted : List GLEvent → Bool
  | [] => true
  | .glCreateShader _ id :: rest =>
    decide (GLEvent.glDeleteShader id ∈ rest) && createdAreDeleted rest
  | _ :: rest => createdAreDeleted rest

/-! ## The error queue and the GLCall wrapper (lines 8-35) -/

/-- The call `glGetError()` on a queue of pending error codes: hands back the oldest
pending code and removes it, or `GL_NO_ERROR` when nothing is pending. -/
def glGetError : List Nat → Nat × List Nat
  | [] => (GL_NO_ERROR, [])
  | error :: rest => (error, rest)

/-- The function `GLClearError` (lines 21-24): call `glGetError` until it answers
`GL_NO_ERROR`. -/
def GLClearError : List Nat → List Nat
  | [] => []
  | error :: rest => if error ≠ GL_NO_ERROR then GLClearError rest else rest

/-- The function `GLCheckError` (lines 26-35) on the error queue and `std::cout`.
The loop body ends in `return true`, so the loop condition is evaluated once. -/
def GLCheckError (function file : String) (line : Int) (queue : List Nat) (cout : String) :
    Bool × List Nat × String :=
  match glGetError queue with
  | (error, queue) =>
    if error ≠ 0 then
      (true, queue, cout ++ "[OpenGL Error](" ++ toString error ++ "): "
        ++ function ++ " " ++ file ++ ":" ++ toString line)
    else
      (false, queue, cout)

/-- What is left after one use of the `GLCall` wrapper. -/
structure GLCallResult where
  queue : List Nat
  cout : String
  trapped : Bool
deriving DecidableEq, Repr

/-- The macro `GLCall(x)` (lines 10-13) with `ASSERT` (line 8) expanded: the wrapped
call `x` is given by its effect on the error queue, `function`, `file` and `line`
stand for `#x`, `__FILE__` and `__LINE__`. -/
def GLCall (x : List Nat → List Nat) (function file : String) (line : Int)
    (queue : List Nat) (cout : String) : GLCallResult :=
  let queue := GLClearError queue
  let queue := x queue
  match GLCheckError function file line queue cout with
  | (failed, queue, cout) => ⟨queue, cout, failed⟩

/-- A backend for examples: handles are numbered by the position of the call in the
trace, and a stage fails to compile exactly when its source is the text `bad`. -/
def sampleBackend : Backend where
  createProgram := fun t => t.length + 1
  createShader := fun t _ => t.length + 1
  getShaderiv := fun t id pname =>
    if pname = GL_COMPILE_STATUS then
      if GLEvent.glShaderSource id "bad" ∈ t then 0 else 1
    else 6
  getShaderInfoLog := fun _ _ _ => "error"
  uninitialised := fun _ => "@@@@@@"

/-- A backend for examples on which every compile fails with an empty log: the
compile status is false, the log length is 0 and no log text is written, while the
uninitialised buffer happens to hold the six bytes `@@@@@@`. -/
def emptyLogBackend : Backend where
  createProgram := fun t => t.length + 1
  createShader := fun t _ => t.length + 1
  getShaderiv := fun _ _ _ => 0
  getShaderInfoLog := fun _ _ _ => ""
  uninitialised := fun _ => "@@@@@@"

end LearnOpenGL

namespace LearnOpenGL

/-! ## ParseShader: auxiliary lemmas -/

theorem parseLoop_append (st : ParseState) (xs ys : List String) :
    parseLoop st (xs ++ ys) = parseLoop (parseLoop st xs) ys := by
  induction xs generalizing st with
  | nil => rfl
  | cons x xs ih => simp [parseLoop, ih]

theorem parseLine_vertex_marker (st : ParseState) (m : String)
    (hs : find m "#shader" ≠ none) (hv : find m "vertex" ≠ none) :
    parseLine st m = ⟨.VERTEX, st.ss0, st.ss1⟩ := by
  simp [parseLine, hs, hv]

theorem parseLine_fragment_marker (st : ParseState) (m : String)
    (hs : find m "#shader" ≠ none) (hv : find m "vertex" = none)
    (hf : find m "fragment" ≠ none) :
    parseLine st m = ⟨.FRAGMENT, st.ss0, st.ss1⟩ := by
  simp [parseLine, hs, hv, hf]

theorem parseLine_unknown_marker (st : ParseState) (m : String)
    (hs : find m "#shader" ≠ none) (hv : find m "vertex" = none)
    (hf : find m "fragment" = none) :
    parseLine st m = st := by
  simp [parseLine, hs, hv, hf]

theorem parseLoop_none_block (s0 s1 : String) (A : List String)
    (hA : ∀ l ∈ A, find l "#shader" = none) :
    parseLoop ⟨.NONE, s0, s1⟩ A = ⟨.NONE, s0, s1⟩ := by
  induction A with
  | nil => rfl
  | cons a A ih =>
    have ha : find a "#shader" = none := hA a (by simp)
    have hA2 : ∀ l ∈ A, find l "#shader" = none := fun l hl => hA l (by simp [hl])
    simp [parseLoop, parseLine, ha, ih hA2]

theorem parseLoop_vertex_block (s0 s1 : String) (A : List String)
    (hA : ∀ l ∈ A, find l "#shader" = none) :
    parseLoop ⟨.VERTEX, s0, s1⟩ A = ⟨.VERTEX, s0 ++ joinLines A, s1⟩ := by
  induction A generalizing s0 with
  | nil => simp [parseLoop, joinLines]
  | cons a A ih =>
    have ha : find a "#shader" = none := hA a (by simp)
    have hA2 : ∀ l ∈ A, find l "#shader" = none := fun l hl => hA l (by simp [hl])
    simp [parseLoop, parseLine, ha, ih _ hA2, ShaderType.toInt, joinLines, String.append_assoc]

theorem parseLoop_fragment_block (s0 s1 : String) (A : List String)
    (hA : ∀ l ∈ A, find l "#shader" = none) :
    parseLoop ⟨.FRAGMENT, s0, s1⟩ A = ⟨.FRAGMENT, s0, s1 ++ joinLines A⟩ := by
  induction A generalizing s1 with
  | nil => simp [parseLoop, joinLines]
  | cons a A ih =>
    have ha : find a "#shader" = none := hA a (by simp)
    have hA2 : ∀ l ∈ A, find l "#shader" = none := fun l hl => hA l (by simp [hl])
    simp [parseLoop, parseLine, ha, ih _ hA2, ShaderType.toInt, joinLines, String.append_assoc]

theorem parseLoop_cons (st : ParseState) (x : String) (xs : List String) :
    parseLoop st (x :: xs) = parseLoop (parseLine st x) xs := rfl

theorem parseLoop_nil (st : ParseState) : parseLoop st [] = st := rfl

/-- The loop only ever appends to the two buffers, and what it appends is the lines
of a marker-free sublist of its input. -/
theorem parseLoop_sublists (st : ParseState) (lines : List String) :
    ∃ sv sf : List String, sv.Sublist lines ∧ sf.Sublist lines ∧
      (∀ l ∈ sv, find l "#shader" = none) ∧ (∀ l ∈ sf, find l "#shader" = none) ∧
      (parseLoop st lines).ss0 = st.ss0 ++ joinLines sv ∧
      (parseLoop st lines).ss1 = st.ss1 ++ joinLines sf := by
  induction lines generalizing st with
  | nil => exact ⟨[], [], List.Sublist.slnil, List.Sublist.slnil, by simp, by simp,
      by simp [parseLoop, joinLines], by simp [parseLoop, joinLines]⟩
  | cons a rest ih =>
    obtain ⟨sv, sf, hsv, hsf, hmv, hmf, h0, h1⟩ := ih (parseLine st a)
    rw [parseLoop_cons]
    by_cases hs : find a "#shader" = none
    · rcases st with ⟨ty, s0, s1⟩
      cases ty with
      | NONE =>
        have hp : parseLine ⟨.NONE, s0, s1⟩ a = ⟨.NONE, s0, s1⟩ := by simp [parseLine, hs]
        rw [hp] at h0 h1 ⊢
        exact ⟨sv, sf, hsv.cons a, hsf.cons a, hmv, hmf, h0, h1⟩
      | VERTEX =>
        have hp : parseLine ⟨.VERTEX, s0, s1⟩ a = ⟨.VERTEX, s0 ++ a ++ "\n", s1⟩ := by
          simp [parseLine, hs, ShaderType.toInt]
        rw [hp] at h0 h1 ⊢
        refine ⟨a :: sv, sf, hsv.cons₂ a, hsf.cons a, ?_, hmf, ?_, h1⟩
        · intro l hl
          rcases List.mem_cons.mp hl with rfl | hl
          · exact hs
          · exact hmv l hl
        · rw [h0]; simp [joinLines, String.append_assoc]
      | FRAGMENT =>
        have hp : parseLine ⟨.FRAGMENT, s0, s1⟩ a = ⟨.FRAGMENT, s0, s1 ++ a ++ "\n"⟩ := by
          simp [parseLine, hs, ShaderType.toInt]
        rw [hp] at h0 h1 ⊢
        refine ⟨sv, a :: sf, hsv.cons a, hsf.cons₂ a, hmv, ?_, h0, ?_⟩
        · intro l hl
          rcases List.mem_cons.mp hl with rfl | hl
          · exact hs
          · exact hmf l hl
        · rw [h1]; simp [joinLines, String.append_assoc]
    · have hp0 : (parseLine st a).ss0 = st.ss0 := by
        simp only [parseLine, hs, ne_eq, not_false_eq_true, if_true]
        split_ifs <;> rfl
      have hp1 : (parseLine st a).ss1 = st.ss1 := by
        simp only [parseLine, hs, ne_eq, not_false_eq_true, if_true]
        split_ifs <;> rfl
      rw [hp0] at h0
      rw [hp1] at h1
      exact ⟨sv, sf, hsv.cons a, hsf.cons a, hmv, hmf, h0, h1⟩

/-! ## ParseShader: the claims -/

/-- C1: for a two-block input `pre ++ [m1] ++ A ++ [m2] ++ B` whose blocks `pre`, `A`,
`B` have no line containing `#shader`, with one marker naming only the vertex stage
and the other only the fragment stage, `ParseShader` returns for the stage of `m1`
exactly the lines of `A` and for the stage of `m2` exactly the lines of `B`, each
line followed by a newline; this holds in both block orders, and the lines of `pre`
are in neither text. (That the vertex marker lacks `fragment` is not needed.) -/
theorem ParseShader_two_blocks (pre A B : List String) (mv mf : String)
    (hpre : ∀ l ∈ pre, find l "#shader" = none)
    (hA : ∀ l ∈ A, find l "#shader" = none)
    (hB : ∀ l ∈ B, find l "#shader" = none)
    (hv1 : find mv "#shader" ≠ none) (hv2 : find mv "vertex" ≠ none)
    (hf1 : find mf "#shader" ≠ none) (hf2 : find mf "fragment" ≠ none)
    (hf3 : find mf "vertex" = none) :
    ParseShader (some (pre ++ [mv] ++ A ++ [mf] ++ B)) = ⟨joinLines A, joinLines B⟩ ∧
    ParseShader (some (pre ++ [mf] ++ A ++ [mv] ++ B)) = ⟨joinLines B, joinLines A⟩ := by
  constructor
  · simp only [ParseShader, getlines, List.singleton_append, List.cons_append,
      List.append_assoc, parseLoop_append, parseLoop_cons, parseLoop_nil,
      parseLoop_none_block _ _ pre hpre, parseLine_vertex_marker _ mv hv1 hv2,
      parseLoop_vertex_block _ _ A hA, parseLine_fragment_marker _ mf hf1 hf3 hf2,
      parseLoop_fragment_block _ _ B hB, String.empty_append]
  · simp only [ParseShader, getlines, List.singleton_append, List.cons_append,
      List.append_assoc, parseLoop_append, parseLoop_cons, parseLoop_nil,
      parseLoop_none_block _ _ pre hpre, parseLine_vertex_marker _ mv hv1 hv2,
      parseLoop_vertex_block _ _ B hB, parseLine_fragment_marker _ mf hf1 hf3 hf2,
      parseLoop_fragment_block _ _ A hA, String.empty_append]

/-- C1 at a concrete file, vertex block first and fragment block first. -/
theorem ParseShader_two_blocks_witness :
    ParseShader (some ["// basic", "#shader vertex", "a", "b", "#shader fragment", "c"])
        = ⟨"a\nb\n", "c\n"⟩ ∧
    ParseShader (some ["// basic", "#shader fragment", "a", "b", "#shader vertex", "c"])
        = ⟨"c\n", "a\nb\n"⟩ :=
  ParseShader_two_blocks ["// basic"] ["a", "b"] ["c"] "#shader vertex" "#shader fragment"
    (by decide) (by decide) (by decide) (by decide) (by decide) (by decide)
    (by decide) (by decide)

/-- C2: for an input `[v1] ++ A ++ [f] ++ B ++ [v2] ++ C` with two vertex markers
`v1`, `v2`, a fragment marker `f` and marker-free blocks, `ParseShader` returns as
vertex text the lines of `A` followed by the lines of `C` and as fragment text the
lines of `B`: the second vertex marker does not clear what was accumulated. -/
theorem ParseShader_repeated_vertex_block (A B C : List String) (v1 f v2 : String)
    (hA : ∀ l ∈ A, find l "#shader" = none)
    (hB : ∀ l ∈ B, find l "#shader" = none)
    (hC : ∀ l ∈ C, find l "#shader" = none)
    (h1s : find v1 "#shader" ≠ none) (h1v : find v1 "vertex" ≠ none)
    (hfs : find f "#shader" ≠ none) (hfv : find f "vertex" = none)
    (hff : find f "fragment" ≠ none)
    (h2s : find v2 "#shader" ≠ none) (h2v : find v2 "vertex" ≠ none) :
    ParseShader (some ([v1] ++ A ++ [f] ++ B ++ [v2] ++ C))
      = ⟨joinLines A ++ joinLines C, joinLines B⟩ := by
  simp only [ParseShader, getlines, List.singleton_append, List.cons_append,
      List.append_assoc, parseLoop_append, parseLoop_cons, parseLoop_nil,
    parseLine_vertex_marker _ v1 h1s h1v, parseLoop_vertex_block _ _ A hA,
    parseLine_fragment_marker _ f hfs hfv hff, parseLoop_fragment_block _ _ B hB,
    parseLine_vertex_marker _ v2 h2s h2v, parseLoop_vertex_block _ _ C hC,
    String.empty_append]

/-- C2 at a concrete file with two vertex blocks around a fragment block. -/
theorem ParseShader_repeated_vertex_block_witness :
    ParseShader (some ["#shader vertex", "a", "#shader fragment", "b", "c",
        "#shader vertex", "d"]) = ⟨"a\nd\n", "b\nc\n"⟩ :=
  ParseShader_repeated_vertex_block ["a"] ["b", "c"] ["d"] "#shader vertex"
    "#shader fragment" "#shader vertex" (by decide) (by decide) (by decide)
    (by decide) (by decide) (by decide) (by decide) (by decide) (by decide) (by decide)

/-- C3: when no line of the input contains `#shader` (the empty input included),
`ParseShader` returns the empty string for both stages. -/
theorem ParseShader_no_markers (lines : List String)
    (h : ∀ l ∈ lines, find l "#shader" = none) :
    ParseShader (some lines) = ⟨"", ""⟩ := by
  simp only [ParseShader, getlines, parseLoop_none_block _ _ lines h]

/-- C3 at a concrete marker-free file. -/
theorem ParseShader_no_markers_witness :
    ParseShader (some ["void main()", "shader", "# shader vertex"]) = ⟨"", ""⟩ :=
  ParseShader_no_markers ["void main()", "shader", "# shader vertex"] (by decide)

/-- C4: a line containing `#shader` but neither `vertex` nor `fragment` can be
removed from any input without changing the result of `ParseShader`; and for every
input each returned text is the concatenation of `line ++ "\n"` over a sublist of
the input lines none of which contains `#shader`. -/
theorem ParseShader_marker_excluded (m : String) (pre post lines : List String)
    (hs : find m "#shader" ≠ none) (hv : find m "vertex" = none)
    (hf : find m "fragment" = none) :
    ParseShader (some (pre ++ [m] ++ post)) = ParseShader (some (pre ++ post)) ∧
    ∃ sv sf : List String, sv.Sublist lines ∧ sf.Sublist lines ∧
      (∀ l ∈ sv, find l "#shader" = none) ∧ (∀ l ∈ sf, find l "#shader" = none) ∧
      ParseShader (some lines) = ⟨joinLines sv, joinLines sf⟩ := by
  constructor
  · simp only [ParseShader, getlines, List.singleton_append, List.cons_append,
      List.append_assoc, parseLoop_append, parseLoop_cons, parseLoop_nil,
      parseLine_unknown_marker _ m hs hv hf]
  · obtain ⟨sv, sf, hsv, hsf, hmv, hmf, h0, h1⟩ := parseLoop_sublists ⟨.NONE, "", ""⟩ lines
    refine ⟨sv, sf, hsv, hsf, hmv, hmf, ?_⟩
    simp only [ParseShader, getlines, h0, h1, String.empty_append]

/-- C4 at a concrete file with an unrecognised marker inside the vertex block. -/
theorem ParseShader_marker_excluded_witness :
    ParseShader (some (["#shader vertex", "a"] ++ ["#shader geometry"] ++ ["b"]))
      = ParseShader (some (["#shader vertex", "a"] ++ ["b"])) ∧
    ∃ sv sf : List String, sv.Sublist ["#shader vertex", "a", "#shader geometry", "b"] ∧
      sf.Sublist ["#shader vertex", "a", "#shader geometry", "b"] ∧
      (∀ l ∈ sv, find l "#shader" = none) ∧ (∀ l ∈ sf, find l "#shader" = none) ∧
      ParseShader (some ["#shader vertex", "a", "#shader geometry", "b"])
        = ⟨joinLines sv, joinLines sf⟩ :=
  ParseShader_marker_excluded "#shader geometry" ["#shader vertex", "a"] ["b"]
    ["#shader vertex", "a", "#shader geometry", "b"] (by decide) (by decide) (by decide)

/-- C5, refuted as stated: on a stream whose open failed the call returns normally,
with a bundle of two empty strings, and raises no condition. -/
theorem ParseShader_unopened_returns_bundle :
    ParseShaderCall none = Except.ok ⟨"", ""⟩ ∧
    ¬ (∃ c, ParseShaderCall none = Except.error c) := by
  constructor
  · rfl
  · rintro ⟨c, hc⟩
    simp [ParseShaderCall] at hc

/-- C5 as amended: `ParseShader` raises no condition on any stream; when the file
could not be opened it returns the bundle of two empty strings, the same bundle as
for a file with no lines. -/
theorem ParseShader_never_fails (stream : ifstream) :
    (∃ bundle, ParseShaderCall stream = Except.ok bundle) ∧
    ParseShader none = ⟨"", ""⟩ ∧ ParseShader none = ParseShader (some []) :=
  ⟨⟨ParseShader stream, rfl⟩, rfl, rfl⟩

/-- C10, refuted as stated: in the marker line `#shader fragment vertex` the keyword
`fragment` occurs first (index 8, before `vertex` at index 17), yet the line selects
the vertex stage: the line after it goes to the vertex text. -/
theorem parseLine_first_keyword_counterexample :
    find "#shader fragment vertex" "#shader" ≠ none ∧
    find "#shader fragment vertex" "fragment" = some 8 ∧
    find "#shader fragment vertex" "vertex" = some 17 ∧
    firstKeywordStage "#shader fragment vertex" = .FRAGMENT ∧
    (parseLine ⟨.NONE, "", ""⟩ "#shader fragment vertex").type = .VERTEX ∧
    ParseShader (some ["#shader fragment vertex", "x"]) = ⟨"x\n", ""⟩ := by
  decide

/-- C10 as amended: a marker line containing both keywords selects the vertex stage
whatever the order of the keywords in the line, since the test for `vertex` is made
first; the marker-free lines after it are appended to the vertex text and the
fragment text is left as it was. -/
theorem parseLine_both_keywords_vertex (st : ParseState) (m : String)
    (pre A : List String)
    (hs : find m "#shader" ≠ none) (hv : find m "vertex" ≠ none)
    (hf : find m "fragment" ≠ none)
    (hA : ∀ l ∈ A, find l "#shader" = none) :
    parseLine st m = ⟨.VERTEX, st.ss0, st.ss1⟩ ∧
    ParseShader (some (pre ++ [m] ++ A))
      = ⟨(ParseShader (some pre)).vertexSource ++ joinLines A,
         (ParseShader (some pre)).fragmentSource⟩ := by
  have _ := hf
  constructor
  · exact parseLine_vertex_marker st m hs hv
  · simp only [ParseShader, getlines, List.singleton_append, List.cons_append,
      List.append_assoc, parseLoop_append, parseLoop_cons, parseLoop_nil,
      parseLine_vertex_marker _ m hs hv, parseLoop_vertex_block _ _ A hA]

/-- C10 as amended, at `#shader fragment vertex` after a fragment block. -/
theorem parseLine_both_keywords_vertex_witness :
    parseLine ⟨.FRAGMENT, "", "f\n"⟩ "#shader fragment vertex" = ⟨.VERTEX, "", "f\n"⟩ ∧
    ParseShader (some (["#shader fragment", "f"] ++ ["#shader fragment vertex"] ++ ["x"]))
      = ⟨(ParseShader (some ["#shader fragment", "f"])).vertexSource ++ joinLines ["x"],
         (ParseShader (some ["#shader fragment", "f"])).fragmentSource⟩ :=
  parseLine_both_keywords_vertex ⟨.FRAGMENT, "", "f\n"⟩ "#shader fragment vertex"
    ["#shader fragment", "f"] ["x"] (by decide) (by decide) (by decide) (by decide)

/-! ## CompileShader and CreateShader: auxiliary lemmas -/

/-- Both outcomes of `CompileShader` with the trace and the output written out. -/
theorem CompileShader_eq (B : Backend) (type : Nat) (source : String) (w : World) :
    CompileShader B type source w =
      (let id := B.createShader w.trace type
       let t := w.trace ++ [.glCreateShader type id, .glShaderSource id source,
         .glCompileShader id]
       let result := B.getShaderiv t id GL_COMPILE_STATUS
       let length := B.getShaderiv (t ++ [.glGetShaderiv id GL_COMPILE_STATUS result]) id
         GL_INFO_LOG_LENGTH
       let log := B.getShaderInfoLog (t ++ [.glGetShaderiv id GL_COMPILE_STATUS result,
         .glGetShaderiv id GL_INFO_LOG_LENGTH length]) id length
       let buffer := B.uninitialised (t ++ [.glGetShaderiv id GL_COMPILE_STATUS result,
         .glGetShaderiv id GL_INFO_LOG_LENGTH length])
       if result = GL_FALSE then
         (0, ⟨t ++ [.glGetShaderiv id GL_COMPILE_STATUS result,
                .glGetShaderiv id GL_INFO_LOG_LENGTH length,
                .glGetShaderInfoLog id length log, .glDeleteShader id],
              w.cout ++ "Fail to compile "
                ++ (if type = GL_VERTEX_SHADER then "vertex" else "fragment")
                ++ " shader" ++ "\n" ++ (if 0 < length then log else buffer) ++ "\n"⟩)
       else
         (id, ⟨t ++ [.glGetShaderiv id GL_COMPILE_STATUS result], w.cout⟩)) := by
  simp only [CompileShader, World.call, World.print, List.append_assoc, List.singleton_append,
    List.cons_append, List.nil_append, String.append_assoc]
  by_cases h : GL_FALSE = B.getShaderiv (w.trace ++ [.glCreateShader type
      (B.createShader w.trace type), .glShaderSource (B.createShader w.trace type) source,
      .glCompileShader (B.createShader w.trace type)]) (B.createShader w.trace type)
      GL_COMPILE_STATUS
  · rw [if_pos h, if_pos h.symm]
  · rw [if_neg h, if_neg (fun h2 => h h2.symm)]

/-- The split form of `createdAreDeleted`. -/
theorem createdAreDeleted_split (t : List GLEvent) (h : createdAreDeleted t = true)
    (l1 l2 : List GLEvent) (type id : Nat) (ht : t = l1 ++ .glCreateShader type id :: l2) :
    GLEvent.glDeleteShader id ∈ l2 := by
  induction l1 generalizing t with
  | nil =>
    subst ht
    simp [createdAreDeleted] at h
    exact h.1
  | cons e l1 ih =>
    subst ht
    apply ih (l1 ++ .glCreateShader type id :: l2) _ rfl
    cases e <;> simp_all [createdAreDeleted]

/-! ## CompileShader: the claim -/

/-- The outcomes of `CompileShader` for every stage kind, source text and backend.
When the backend reports compile status false, the handle returned is zero, the
output is `Fail to compile`, the tag of the stage kind (`vertex` or `fragment`) and
`shader`, then the text found in the buffer, and the stage object created is
deleted; the text found in the buffer is the log text of the backend when the
reported log length is positive, and is whatever the uninitialised buffer holds
when the reported log length is zero or negative. When the backend reports any other
status, the handle returned is the one the create call gave, nothing is written and
nothing is deleted. -/
theorem CompileShader_outcomes (B : Backend) (kind : StageKind) (source : String)
    (w : World) :
    let id := B.createShader w.trace kind.glType
    let t := w.trace ++ [.glCreateShader kind.glType id, .glShaderSource id source,
      .glCompileShader id]
    let result := B.getShaderiv t id GL_COMPILE_STATUS
    let length := B.getShaderiv (t ++ [.glGetShaderiv id GL_COMPILE_STATUS result]) id
      GL_INFO_LOG_LENGTH
    let log := B.getShaderInfoLog (t ++ [.glGetShaderiv id GL_COMPILE_STATUS result,
      .glGetShaderiv id GL_INFO_LOG_LENGTH length]) id length
    let buffer := B.uninitialised (t ++ [.glGetShaderiv id GL_COMPILE_STATUS result,
      .glGetShaderiv id GL_INFO_LOG_LENGTH length])
    (result = GL_FALSE → 0 < length →
      CompileShader B kind.glType source w =
        (0, ⟨t ++ [.glGetShaderiv id GL_COMPILE_STATUS result,
               .glGetShaderiv id GL_INFO_LOG_LENGTH length,
               .glGetShaderInfoLog id length log, .glDeleteShader id],
             w.cout ++ "Fail to compile " ++ kind.tag ++ " shader\n" ++ log ++ "\n"⟩)) ∧
    (result = GL_FALSE → length ≤ 0 →
      CompileShader B kind.glType source w =
        (0, ⟨t ++ [.glGetShaderiv id GL_COMPILE_STATUS result,
               .glGetShaderiv id GL_INFO_LOG_LENGTH length,
               .glGetShaderInfoLog id length log, .glDeleteShader id],
             w.cout ++ "Fail to compile " ++ kind.tag ++ " shader\n" ++ buffer ++ "\n"⟩)) ∧
    (result ≠ GL_FALSE →
      CompileShader B kind.glType source w =
        (id, ⟨t ++ [.glGetShaderiv id GL_COMPILE_STATUS result], w.cout⟩)) := by
  intro id t result length log buffer
  refine ⟨?_, ?_, ?_⟩
  · intro h hlen
    rw [CompileShader_eq]
    simp only []
    rw [if_pos h, if_pos hlen]
    cases kind
    · simp [StageKind.glType, StageKind.tag, String.append_assoc, id, t, result, length,
        log]
    · simp [StageKind.glType, StageKind.tag, String.append_assoc, id, t, result, length,
        log, GL_FRAGMENT_SHADER, GL_VERTEX_SHADER]
  · intro h hlen
    rw [CompileShader_eq]
    simp only []
    rw [if_pos h, if_neg (not_lt.mpr hlen)]
    cases kind
    · simp [StageKind.glType, StageKind.tag, String.append_assoc, id, t, result, length,
        log, buffer]
    · simp [StageKind.glType, StageKind.tag, String.append_assoc, id, t, result, length,
        log, buffer, GL_FRAGMENT_SHADER, GL_VERTEX_SHADER]
  · intro h
    rw [CompileShader_eq]
    simp only []
    rw [if_neg h]

/-- The outcomes of `CompileShader` at a concrete backend: a vertex stage that fails
with the log text `error` of length 6, and a fragment stage that compiles. -/
theorem CompileShader_outcomes_sample :
    CompileShader sampleBackend GL_VERTEX_SHADER "bad" ⟨[], ""⟩ =
      (0, ⟨[.glCreateShader GL_VERTEX_SHADER 1, .glShaderSource 1 "bad", .glCompileShader 1,
            .glGetShaderiv 1 GL_COMPILE_STATUS 0, .glGetShaderiv 1 GL_INFO_LOG_LENGTH 6,
            .glGetShaderInfoLog 1 6 "error", .glDeleteShader 1],
           "Fail to compile vertex shader\nerror\n"⟩) ∧
    CompileShader sampleBackend GL_FRAGMENT_SHADER "good" ⟨[], ""⟩ =
      (1, ⟨[.glCreateShader GL_FRAGMENT_SHADER 1, .glShaderSource 1 "good",
            .glCompileShader 1, .glGetShaderiv 1 GL_COMPILE_STATUS 1], ""⟩) :=
  ⟨(CompileShader_outcomes sampleBackend .Vertex "bad" ⟨[], ""⟩).1 (by decide) (by decide),
   (CompileShader_outcomes sampleBackend .Fragment "good" ⟨[], ""⟩).2.2 (by decide)⟩

/-- C6, the code at an input where the claim fails: the backend reports compile
status false with log length 0, so it has no log text and writes nothing to the
buffer of line 83. `CompileShader` returns the zero handle, writes the tagged line
and deletes the stage object, but after the tagged line it writes the bytes that the
uninitialised buffer holds (here `@@@@@@`) and not the empty log text of the
backend. -/
theorem CompileShader_prints_unwritten_buffer :
    emptyLogBackend.getShaderiv [.glCreateShader GL_VERTEX_SHADER 1, .glShaderSource 1 "bad",
        .glCompileShader 1, .glGetShaderiv 1 GL_COMPILE_STATUS 0] 1 GL_INFO_LOG_LENGTH = 0 ∧
    emptyLogBackend.getShaderInfoLog [.glCreateShader GL_VERTEX_SHADER 1,
        .glShaderSource 1 "bad", .glCompileShader 1, .glGetShaderiv 1 GL_COMPILE_STATUS 0,
        .glGetShaderiv 1 GL_INFO_LOG_LENGTH 0] 1 0 = "" ∧
    CompileShader emptyLogBackend GL_VERTEX_SHADER "bad" ⟨[], ""⟩ =
      (0, ⟨[.glCreateShader GL_VERTEX_SHADER 1, .glShaderSource 1 "bad", .glCompileShader 1,
            .glGetShaderiv 1 GL_COMPILE_STATUS 0, .glGetShaderiv 1 GL_INFO_LOG_LENGTH 0,
            .glGetShaderInfoLog 1 0 "", .glDeleteShader 1],
           "Fail to compile vertex shader\n@@@@@@\n"⟩) ∧
    (CompileShader emptyLogBackend GL_VERTEX_SHADER "bad" ⟨[], ""⟩).2.cout
      ≠ "Fail to compile vertex shader\n" ++ "" ++ "\n" := by
  decide

/-- The handle and the backend calls of one `CompileShader` call, with the answers of
the backend named. -/
theorem CompileShader_shape (B : Backend) (type : Nat) (source : String) (w : World) :
    ∃ (id : Nat) (result : Int) (fail : List GLEvent),
      id = B.createShader w.trace type ∧
      result = B.getShaderiv (w.trace ++ [.glCreateShader type id, .glShaderSource id source,
        .glCompileShader id]) id GL_COMPILE_STATUS ∧
      (result ≠ GL_FALSE → fail = []) ∧
      (result = GL_FALSE → ∃ (length : Int) (message : String),
        fail = [.glGetShaderiv id GL_INFO_LOG_LENGTH length,
          .glGetShaderInfoLog id length message, .glDeleteShader id]) ∧
      (CompileShader B type source w).1 = (if result = GL_FALSE then 0 else id) ∧
      (CompileShader B type source w).2.trace =
        w.trace ++ [.glCreateShader type id, .glShaderSource id source, .glCompileShader id,
          .glGetShaderiv id GL_COMPILE_STATUS result] ++ fail := by
  by_cases h : B.getShaderiv (w.trace ++ [.glCreateShader type (B.createShader w.trace type),
      .glShaderSource (B.createShader w.trace type) source,
      .glCompileShader (B.createShader w.trace type)]) (B.createShader w.trace type)
      GL_COMPILE_STATUS = GL_FALSE
  · refine ⟨_, _, [.glGetShaderiv (B.createShader w.trace type) GL_INFO_LOG_LENGTH (B.getShaderiv ((w.trace ++ [.glCreateShader type (B.createShader w.trace type), .glShaderSource (B.createShader w.trace type) source,
        .glCompileShader (B.createShader w.trace type)]) ++ [.glGetShaderiv (B.createShader w.trace type) GL_COMPILE_STATUS (B.getShaderiv (w.trace ++ [.glCreateShader type (B.createShader w.trace type), .glShaderSource (B.createShader w.trace type) source,
        .glCompileShader (B.createShader w.trace type)]) (B.createShader w.trace type) GL_COMPILE_STATUS)]) (B.createShader w.trace type)
        GL_INFO_LOG_LENGTH),
      .glGetShaderInfoLog (B.createShader w.trace type) (B.getShaderiv ((w.trace ++ [.glCreateShader type (B.createShader w.trace type), .glShaderSource (B.createShader w.trace type) source,
        .glCompileShader (B.createShader w.trace type)]) ++ [.glGetShaderiv (B.createShader w.trace type) GL_COMPILE_STATUS (B.getShaderiv (w.trace ++ [.glCreateShader type (B.createShader w.trace type), .glShaderSource (B.createShader w.trace type) source,
        .glCompileShader (B.createShader w.trace type)]) (B.createShader w.trace type) GL_COMPILE_STATUS)]) (B.createShader w.trace type)
        GL_INFO_LOG_LENGTH) (B.getShaderInfoLog ((w.trace ++ [.glCreateShader type (B.createShader w.trace type), .glShaderSource (B.createShader w.trace type) source,
        .glCompileShader (B.createShader w.trace type)]) ++ [.glGetShaderiv (B.createShader w.trace type) GL_COMPILE_STATUS (B.getShaderiv (w.trace ++ [.glCreateShader type (B.createShader w.trace type), .glShaderSource (B.createShader w.trace type) source,
        .glCompileShader (B.createShader w.trace type)]) (B.createShader w.trace type) GL_COMPILE_STATUS),
        .glGetShaderiv (B.createShader w.trace type) GL_INFO_LOG_LENGTH (B.getShaderiv ((w.trace ++ [.glCreateShader type (B.createShader w.trace type), .glShaderSource (B.createShader w.trace type) source,
        .glCompileShader (B.createShader w.trace type)]) ++ [.glGetShaderiv (B.createShader w.trace type) GL_COMPILE_STATUS (B.getShaderiv (w.trace ++ [.glCreateShader type (B.createShader w.trace type), .glShaderSource (B.createShader w.trace type) source,
        .glCompileShader (B.createShader w.trace type)]) (B.createShader w.trace type) GL_COMPILE_STATUS)]) (B.createShader w.trace type)
        GL_INFO_LOG_LENGTH)]) (B.createShader w.trace type) (B.getShaderiv ((w.trace ++ [.glCreateShader type (B.createShader w.trace type), .glShaderSource (B.createShader w.trace type) source,
        .glCompileShader (B.createShader w.trace type)]) ++ [.glGetShaderiv (B.createShader w.trace type) GL_COMPILE_STATUS (B.getShaderiv (w.trace ++ [.glCreateShader type (B.createShader w.trace type), .glShaderSource (B.createShader w.trace type) source,
        .glCompileShader (B.createShader w.trace type)]) (B.createShader w.trace type) GL_COMPILE_STATUS)]) (B.createShader w.trace type)
        GL_INFO_LOG_LENGTH)),
      .glDeleteShader (B.createShader w.trace type)], rfl, rfl, fun hne => absurd h hne, fun _ => ⟨_, _, rfl⟩, ?_, ?_⟩
    · rw [CompileShader_eq]
      simp only []
      rw [if_pos h, if_pos h]
    · rw [CompileShader_eq]
      simp only []
      rw [if_pos h]
      simp only [List.append_assoc, List.singleton_append, List.cons_append, List.nil_append]
  · refine ⟨_, _, [], rfl, rfl, fun _ => rfl, fun he => absurd he h, ?_, ?_⟩
    · rw [CompileShader_eq]
      simp only []
      rw [if_neg h, if_neg h]
    · rw [CompileShader_eq]
      simp only []
      rw [if_neg h]
      simp only [List.append_assoc, List.singleton_append, List.cons_append, List.nil_append,
        List.append_nil]

/-- The body of `CreateShader` after its two `CompileShader` calls. -/
theorem CreateShader_unfold (B : Backend) (vertexShader fragmentShader : String)
    (w : World) (cv cf : Nat × World)
    (hcv : cv = CompileShader B GL_VERTEX_SHADER vertexShader
      (World.call w (.glCreateProgram (B.createProgram w.trace))))
    (hcf : cf = CompileShader B GL_FRAGMENT_SHADER fragmentShader cv.2) :
    CreateShader B vertexShader fragmentShader w =
      (B.createProgram w.trace,
       ⟨cf.2.trace ++ [.glAttachShader (B.createProgram w.trace) cv.1,
          .glAttachShader (B.createProgram w.trace) cf.1,
          .glLinkProgram (B.createProgram w.trace),
          .glValidateProgram (B.createProgram w.trace),
          .glDeleteShader cv.1, .glDeleteShader cf.1], cf.2.cout⟩) := by
  subst hcf
  subst hcv
  simp only [CreateShader, World.call, List.append_assoc, List.singleton_append,
    List.cons_append, List.nil_append]

/-- The return value of `CreateShader` and the complete list of backend calls it
makes, with the answers of the backend named. -/
theorem CreateShader_shape (B : Backend) (vertexShader fragmentShader : String)
    (w : World) :
    ∃ (idv idf vs fs : Nat) (rv rf : Int) (failv failf : List GLEvent),
      idv = B.createShader (w.trace ++ [.glCreateProgram (B.createProgram w.trace)])
        GL_VERTEX_SHADER ∧
      rv = B.getShaderiv (w.trace ++ [.glCreateProgram (B.createProgram w.trace),
        .glCreateShader GL_VERTEX_SHADER idv, .glShaderSource idv vertexShader,
        .glCompileShader idv]) idv GL_COMPILE_STATUS ∧
      (rv ≠ GL_FALSE → failv = []) ∧
      (rv = GL_FALSE → ∃ (length : Int) (message : String),
        failv = [.glGetShaderiv idv GL_INFO_LOG_LENGTH length,
          .glGetShaderInfoLog idv length message, .glDeleteShader idv]) ∧
      vs = (if rv = GL_FALSE then 0 else idv) ∧
      idf = B.createShader (w.trace ++ [.glCreateProgram (B.createProgram w.trace),
        .glCreateShader GL_VERTEX_SHADER idv, .glShaderSource idv vertexShader,
        .glCompileShader idv, .glGetShaderiv idv GL_COMPILE_STATUS rv] ++ failv)
        GL_FRAGMENT_SHADER ∧
      rf = B.getShaderiv (w.trace ++ [.glCreateProgram (B.createProgram w.trace),
        .glCreateShader GL_VERTEX_SHADER idv, .glShaderSource idv vertexShader,
        .glCompileShader idv, .glGetShaderiv idv GL_COMPILE_STATUS rv] ++ failv
        ++ [.glCreateShader GL_FRAGMENT_SHADER idf, .glShaderSource idf fragmentShader,
          .glCompileShader idf]) idf GL_COMPILE_STATUS ∧
      (rf ≠ GL_FALSE → failf = []) ∧
      (rf = GL_FALSE → ∃ (length : Int) (message : String),
        failf = [.glGetShaderiv idf GL_INFO_LOG_LENGTH length,
          .glGetShaderInfoLog idf length message, .glDeleteShader idf]) ∧
      fs = (if rf = GL_FALSE then 0 else idf) ∧
      (CreateShader B vertexShader fragmentShader w).1 = B.createProgram w.trace ∧
      (CreateShader B vertexShader fragmentShader w).2.trace =
        w.trace ++ [.glCreateProgram (B.createProgram w.trace),
          .glCreateShader GL_VERTEX_SHADER idv, .glShaderSource idv vertexShader,
          .glCompileShader idv, .glGetShaderiv idv GL_COMPILE_STATUS rv] ++ failv
        ++ [.glCreateShader GL_FRAGMENT_SHADER idf, .glShaderSource idf fragmentShader,
          .glCompileShader idf, .glGetShaderiv idf GL_COMPILE_STATUS rf] ++ failf
        ++ [.glAttachShader (B.createProgram w.trace) vs,
          .glAttachShader (B.createProgram w.trace) fs,
          .glLinkProgram (B.createProgram w.trace),
          .glValidateProgram (B.createProgram w.trace),
          .glDeleteShader vs, .glDeleteShader fs] := by
  obtain ⟨idv, rv, failv, hidv, hrv, hv0, hv1, hvs, hvt⟩ :=
    CompileShader_shape B GL_VERTEX_SHADER vertexShader
      (World.call w (.glCreateProgram (B.createProgram w.trace)))
  obtain ⟨idf, rf, failf, hidf, hrf, hf0, hf1, hfs, hft⟩ :=
    CompileShader_shape B GL_FRAGMENT_SHADER fragmentShader
      (CompileShader B GL_VERTEX_SHADER vertexShader
        (World.call w (.glCreateProgram (B.createProgram w.trace)))).2
  have hw : (World.call w (.glCreateProgram (B.createProgram w.trace))).trace
      = w.trace ++ [.glCreateProgram (B.createProgram w.trace)] := rfl
  rw [hvt] at hidf hrf hft
  rw [hw] at hidv hrv hidf hrf hft
  simp only [List.append_assoc, List.singleton_append, List.cons_append,
    List.nil_append] at hidv hrv hidf hrf hft
  refine ⟨idv, idf, _, _, rv, rf, failv, failf, hidv, hrv, hv0, hv1, rfl, ?_, ?_,
    hf0, hf1, rfl, ?_, ?_⟩
  · simp only [List.append_assoc, List.singleton_append, List.cons_append, List.nil_append]
    exact hidf
  · simp only [List.append_assoc, List.singleton_append, List.cons_append, List.nil_append]
    exact hrf
  · rw [CreateShader_unfold B vertexShader fragmentShader w _ _ rfl rfl]
  · rw [CreateShader_unfold B vertexShader fragmentShader w _ _ rfl rfl]
    simp only [hft, hvs, hfs, List.append_assoc, List.singleton_append, List.cons_append,
      List.nil_append]

/-! ## CreateShader: the claims -/

/-- C7: for every bundle and every combination of compile outcomes, `CreateShader`
submits the vertex source and then the fragment source for compilation, also when
the vertex compile fails (`idv`, `idf` are the handles the backend gave, `rv`, `rf`
the compile statuses it reported, `failv`, `failf` the calls of a failure path); the
handle `vs`, `fs` attached for a stage is zero when that stage's own compile status
is false and is the handle of its own create call otherwise, so with one failing
stage the other stage still yields its non-zero handle. -/
theorem CreateShader_compiles_both_stages (B : Backend)
    (vertexShader fragmentShader : String) (w : World) :
    ∃ (idv idf vs fs : Nat) (rv rf : Int) (failv failf : List GLEvent),
      idv = B.createShader (w.trace ++ [.glCreateProgram (B.createProgram w.trace)])
        GL_VERTEX_SHADER ∧
      rv = B.getShaderiv (w.trace ++ [.glCreateProgram (B.createProgram w.trace),
        .glCreateShader GL_VERTEX_SHADER idv, .glShaderSource idv vertexShader,
        .glCompileShader idv]) idv GL_COMPILE_STATUS ∧
      (rv ≠ GL_FALSE → failv = []) ∧
      (rv = GL_FALSE → ∃ (length : Int) (message : String),
        failv = [.glGetShaderiv idv GL_INFO_LOG_LENGTH length,
          .glGetShaderInfoLog idv length message, .glDeleteShader idv]) ∧
      vs = (if rv = GL_FALSE then 0 else idv) ∧
      idf = B.createShader (w.trace ++ [.glCreateProgram (B.createProgram w.trace),
        .glCreateShader GL_VERTEX_SHADER idv, .glShaderSource idv vertexShader,
        .glCompileShader idv, .glGetShaderiv idv GL_COMPILE_STATUS rv] ++ failv)
        GL_FRAGMENT_SHADER ∧
      rf = B.getShaderiv (w.trace ++ [.glCreateProgram (B.createProgram w.trace),
        .glCreateShader GL_VERTEX_SHADER idv, .glShaderSource idv vertexShader,
        .glCompileShader idv, .glGetShaderiv idv GL_COMPILE_STATUS rv] ++ failv
        ++ [.glCreateShader GL_FRAGMENT_SHADER idf, .glShaderSource idf fragmentShader,
          .glCompileShader idf]) idf GL_COMPILE_STATUS ∧
      (rf ≠ GL_FALSE → failf = []) ∧
      (rf = GL_FALSE → ∃ (length : Int) (message : String),
        failf = [.glGetShaderiv idf GL_INFO_LOG_LENGTH length,
          .glGetShaderInfoLog idf length message, .glDeleteShader idf]) ∧
      fs = (if rf = GL_FALSE then 0 else idf) ∧
      (CreateShader B vertexShader fragmentShader w).2.trace =
        w.trace ++ [.glCreateProgram (B.createProgram w.trace),
          .glCreateShader GL_VERTEX_SHADER idv, .glShaderSource idv vertexShader,
          .glCompileShader idv, .glGetShaderiv idv GL_COMPILE_STATUS rv] ++ failv
        ++ [.glCreateShader GL_FRAGMENT_SHADER idf, .glShaderSource idf fragmentShader,
          .glCompileShader idf, .glGetShaderiv idf GL_COMPILE_STATUS rf] ++ failf
        ++ [.glAttachShader (B.createProgram w.trace) vs,
          .glAttachShader (B.createProgram w.trace) fs,
          .glLinkProgram (B.createProgram w.trace),
          .glValidateProgram (B.createProgram w.trace),
          .glDeleteShader vs, .glDeleteShader fs] ∧
      List.Sublist [.glShaderSource idv vertexShader, .glCompileShader idv,
          .glShaderSource idf fragmentShader, .glCompileShader idf]
        (CreateShader B vertexShader fragmentShader w).2.trace ∧
      (rv = GL_FALSE → rf ≠ GL_FALSE → idf ≠ 0 → vs = 0 ∧ fs = idf ∧ fs ≠ 0) ∧
      (rf = GL_FALSE → rv ≠ GL_FALSE → idv ≠ 0 → fs = 0 ∧ vs = idv ∧ vs ≠ 0) := by
  obtain ⟨idv, idf, vs, fs, rv, rf, failv, failf, hidv, hrv, hv0, hv1, hvs, hidf, hrf,
    hf0, hf1, hfs, _, ht⟩ := CreateShader_shape B vertexShader fragmentShader w
  refine ⟨idv, idf, vs, fs, rv, rf, failv, failf, hidv, hrv, hv0, hv1, hvs, hidf, hrf,
    hf0, hf1, hfs, ht, ?_, ?_, ?_⟩
  · rw [ht]
    have s1 : List.Sublist [GLEvent.glShaderSource idv vertexShader, .glCompileShader idv]
        [.glCreateProgram (B.createProgram w.trace), .glCreateShader GL_VERTEX_SHADER idv,
          .glShaderSource idv vertexShader, .glCompileShader idv,
          .glGetShaderiv idv GL_COMPILE_STATUS rv] :=
      List.Sublist.cons _ (List.Sublist.cons _ (List.Sublist.cons₂ _
        (List.Sublist.cons₂ _ (List.Sublist.cons _ List.Sublist.slnil))))
    have s2 : List.Sublist [GLEvent.glShaderSource idf fragmentShader, .glCompileShader idf]
        [.glCreateShader GL_FRAGMENT_SHADER idf, .glShaderSource idf fragmentShader,
          .glCompileShader idf, .glGetShaderiv idf GL_COMPILE_STATUS rf] :=
      List.Sublist.cons _ (List.Sublist.cons₂ _ (List.Sublist.cons₂ _
        (List.Sublist.cons _ List.Sublist.slnil)))
    have s3 := (((((List.nil_sublist w.trace).append s1).append
      (List.nil_sublist failv)).append s2).append (List.nil_sublist failf)).append
      (List.nil_sublist [GLEvent.glAttachShader (B.createProgram w.trace) vs,
          GLEvent.glAttachShader (B.createProgram w.trace) fs,
          GLEvent.glLinkProgram (B.createProgram w.trace),
          GLEvent.glValidateProgram (B.createProgram w.trace),
          GLEvent.glDeleteShader vs, GLEvent.glDeleteShader fs])
    simpa using s3
  · intro hv hf hid
    have h1 : vs = 0 := by rw [hvs, if_pos hv]
    have h2 : fs = idf := by rw [hfs, if_neg hf]
    exact ⟨h1, h2, by rw [h2]; exact hid⟩
  · intro hf hv hid
    have h1 : fs = 0 := by rw [hfs, if_pos hf]
    have h2 : vs = idv := by rw [hvs, if_neg hv]
    exact ⟨h1, h2, by rw [h2]; exact hid⟩

/-- C7 at a concrete backend: the vertex stage fails, the fragment stage is still
submitted and its non-zero handle 9 is the one obtained. -/
theorem CreateShader_compiles_both_stages_witness :
    ∃ vs fs : Nat, vs = 0 ∧ fs = 9 ∧ fs ≠ 0 ∧
      List.Sublist [GLEvent.glShaderSource 2 "bad", .glCompileShader 2,
          .glShaderSource 9 "good", .glCompileShader 9]
        (CreateShader sampleBackend "bad" "good" ⟨[], ""⟩).2.trace := by
  obtain ⟨idv, idf, vs, fs, rv, rf, failv, failf, hidv, hrv, _, hv1, _, hidf, hrf,
    _, _, _, _, hsub, h1, _⟩ :=
    CreateShader_compiles_both_stages sampleBackend "bad" "good" ⟨[], ""⟩
  have e1 : idv = 2 := by rw [hidv]; rfl
  subst e1
  have e2 : rv = GL_FALSE := by rw [hrv]; decide
  obtain ⟨len, msg, hfail⟩ := hv1 e2
  subst hfail
  have e3 : idf = 9 := by rw [hidf]; rfl
  subst e3
  have e4 : rf ≠ GL_FALSE := by
    rw [hrf]
    simp [sampleBackend, GL_FALSE]
  obtain ⟨hvs, hfs, hne⟩ := h1 e2 e4 (by decide)
  exact ⟨vs, fs, hvs, hfs, hne, hsub⟩

/-- C8: for every bundle and every combination of compile outcomes, `CreateShader`
returns the handle that the create-program call gave; the calls it adds to the trace
end with the two attach calls, the link and validate calls and then the deletion of
both stage handles, with no link call before; and every stage object created during
the build is deleted later in the build. -/
theorem CreateShader_releases_stage_handles (B : Backend)
    (vertexShader fragmentShader : String) (w : World) :
    (CreateShader B vertexShader fragmentShader w).1 = B.createProgram w.trace ∧
    ∃ (added before : List GLEvent) (vs fs : Nat),
      (CreateShader B vertexShader fragmentShader w).2.trace = w.trace ++ added ∧
      added = before ++ [.glAttachShader (B.createProgram w.trace) vs,
        .glAttachShader (B.createProgram w.trace) fs,
        .glLinkProgram (B.createProgram w.trace),
        .glValidateProgram (B.createProgram w.trace),
        .glDeleteShader vs, .glDeleteShader fs] ∧
      (∀ e ∈ before, ∀ q, e ≠ GLEvent.glLinkProgram q) ∧
      ∀ (l1 l2 : List GLEvent) (type id : Nat),
        added = l1 ++ .glCreateShader type id :: l2 → GLEvent.glDeleteShader id ∈ l2 := by
  obtain ⟨idv, idf, vs, fs, rv, rf, failv, failf, _, _, hv0, hv1, hvs, _, _,
    hf0, hf1, hfs, hp, ht⟩ := CreateShader_shape B vertexShader fragmentShader w
  refine ⟨hp, [.glCreateProgram (B.createProgram w.trace),
      .glCreateShader GL_VERTEX_SHADER idv, .glShaderSource idv vertexShader,
      .glCompileShader idv, .glGetShaderiv idv GL_COMPILE_STATUS rv] ++ failv
    ++ [.glCreateShader GL_FRAGMENT_SHADER idf, .glShaderSource idf fragmentShader,
      .glCompileShader idf, .glGetShaderiv idf GL_COMPILE_STATUS rf] ++ failf
    ++ [.glAttachShader (B.createProgram w.trace) vs, .glAttachShader (B.createProgram w.trace) fs,
      .glLinkProgram (B.createProgram w.trace), .glValidateProgram (B.createProgram w.trace),
      .glDeleteShader vs, .glDeleteShader fs],
    [.glCreateProgram (B.createProgram w.trace),
      .glCreateShader GL_VERTEX_SHADER idv, .glShaderSource idv vertexShader,
      .glCompileShader idv, .glGetShaderiv idv GL_COMPILE_STATUS rv] ++ failv
    ++ [.glCreateShader GL_FRAGMENT_SHADER idf, .glShaderSource idf fragmentShader,
      .glCompileShader idf, .glGetShaderiv idf GL_COMPILE_STATUS rf] ++ failf,
    vs, fs, ?_, rfl, ?_, ?_⟩
  · rw [ht]
    simp only [List.append_assoc]
  · intro e he q heq
    subst heq
    by_cases hv : rv = GL_FALSE
    · obtain ⟨lv, mv, hfv⟩ := hv1 hv
      by_cases hf : rf = GL_FALSE
      · obtain ⟨lf, mf, hff⟩ := hf1 hf
        simp [hfv, hff] at he
      · simp [hfv, hf0 hf] at he
    · by_cases hf : rf = GL_FALSE
      · obtain ⟨lf, mf, hff⟩ := hf1 hf
        simp [hv0 hv, hff] at he
      · simp [hv0 hv, hf0 hf] at he
  · intro l1 l2 type id hsplit
    refine createdAreDeleted_split _ ?_ l1 l2 type id hsplit
    by_cases hv : rv = GL_FALSE
    · obtain ⟨lv, mv, hfv⟩ := hv1 hv
      by_cases hf : rf = GL_FALSE
      · obtain ⟨lf, mf, hff⟩ := hf1 hf
        simp [createdAreDeleted, hfv, hff]
      · simp [createdAreDeleted, hfv, hf0 hf, hfs, hf]
    · by_cases hf : rf = GL_FALSE
      · obtain ⟨lf, mf, hff⟩ := hf1 hf
        simp [createdAreDeleted, hv0 hv, hff, hvs, hv]
      · simp [createdAreDeleted, hv0 hv, hf0 hf, hvs, hfs, hv, hf]

/-- C8 at a concrete backend with a failing vertex stage: the returned handle is the
program handle 1, and the stage objects 2 and 9 created during the build are both
deleted after their creation. -/
theorem CreateShader_releases_stage_handles_witness :
    (CreateShader sampleBackend "bad" "good" ⟨[], ""⟩).1 = 1 ∧
    ∃ added : List GLEvent,
      (CreateShader sampleBackend "bad" "good" ⟨[], ""⟩).2.trace = [] ++ added ∧
      ∀ (l1 l2 : List GLEvent) (type id : Nat),
        added = l1 ++ .glCreateShader type id :: l2 → GLEvent.glDeleteShader id ∈ l2 := by
  obtain ⟨hp, added, before, vs, fs, ht, _, _, hdel⟩ :=
    CreateShader_releases_stage_handles sampleBackend "bad" "good" ⟨[], ""⟩
  exact ⟨hp, added, ht, hdel⟩

/-! ## The GLCall wrapper -/

/-- On a queue of non-zero codes `GLClearError` leaves nothing pending. -/
theorem GLClearError_nonzero (queue : List Nat) (h : ∀ e ∈ queue, e ≠ 0) :
    GLClearError queue = [] := by
  induction queue with
  | nil => rfl
  | cons e rest ih =>
    have he : e ≠ GL_NO_ERROR := h e (by simp)
    simp only [GLClearError, he, ne_eq, not_false_eq_true, if_true]
    exact ih (fun x hx => h x (by simp [hx]))

/-- What one use of `GLCall` does on a queue of non-zero codes: the stale codes are
dropped, and of the codes that the wrapped call leaves pending only the oldest is
taken off the queue and reported; the trap fires exactly when there was one. -/
theorem GLCall_eq (x : List Nat → List Nat) (function file : String) (line : Int)
    (queue : List Nat) (cout : String) (hq : ∀ e ∈ queue, e ≠ 0)
    (hx : ∀ e ∈ x [], e ≠ 0) :
    GLCall x function file line queue cout =
      match x [] with
      | [] => ⟨[], cout, false⟩
      | error :: rest =>
        ⟨rest, cout ++ "[OpenGL Error](" ++ toString error ++ "): "
          ++ function ++ " " ++ file ++ ":" ++ toString line, true⟩ := by
  simp only [GLCall, GLClearError_nonzero queue hq]
  cases hxe : x [] with
  | nil => simp [GLCheckError, glGetError, GL_NO_ERROR]
  | cons e rest =>
    have he : e ≠ 0 := hx e (by simp [hxe])
    simp [GLCheckError, glGetError, he]

/-- C9, the code at an input where the claim fails: the wrapped call leaves the two
codes 1280 and 1281 pending (one stale code 1282 was pending before). The stale code
is dropped and the trap fires, but only code 1280 is reported and code 1281 is still
pending afterwards. -/
theorem GLCall_reports_only_first_error :
    GLCall (fun queue => queue ++ [1280, 1281]) "glDrawElements(GL_TRIANGLES, 6, GL_INT, 0)"
        "Application.cpp" 175 [1282] ""
      = ⟨[1281],
         "[OpenGL Error](1280): glDrawElements(GL_TRIANGLES, 6, GL_INT, 0) Application.cpp:175",
         true⟩ := by
  decide

end LearnOpenGL
